import Mathlib

/-!
Shallow embedding of `main.py` (Contoso sales agent demo) and of the
spec-level StreamEventBridge, with theorems settling the claims about the
program's behaviour.

The program is a straight-line async script.  External service calls
(database connect, schema introspection, agent/thread/message/stream RPCs)
are modelled by an environment that says which call raises an exception;
the execution of `initialize` is a deterministic function of that
environment producing a trace of completed operations plus a result
(returned normally or raised).
-/

namespace ContosoAgent

/-- Tool definitions that can be attached to an agent or collected in a
tool set (main.py lines 40-50). -/
inductive ToolDef
  | fetchSalesDataFunction
  | codeInterpreter
deriving DecidableEq

/-- `functions.definitions`: the definitions of the single registered
async function tool (main.py lines 29-31, 40). -/
def functions_definitions : List ToolDef := [ToolDef.fetchSalesDataFunction]

/-- `toolset`: the module-level AsyncToolSet built at import time
(main.py lines 48-50).  Note: it is never passed to any agent. -/
def toolset : List ToolDef :=
  [ToolDef.fetchSalesDataFunction, ToolDef.codeInterpreter]

/-- The single-quote character. -/
def squote : Char := Char.ofNat 39

/-- The double-quote character. -/
def dquote : Char := Char.ofNat 34

/-- Lowercase hexadecimal digit character for a value below 16. -/
def hexDigit (n : Nat) : Char :=
  if n < 10 then Char.ofNat (48 + n) else Char.ofNat (87 + n)

/-- `width` big-endian lowercase hexadecimal digits of `n`. -/
def hexDigits (width n : Nat) : List Char :=
  (List.range width).reverse.map fun i => hexDigit (n / 16 ^ i % 16)

/-- Is `c` in the printable ASCII range (space through tilde)? -/
def printableAscii (c : Char) : Bool :=
  32 ≤ c.toNat && c.toNat ≤ 126

/-- One character of Python `repr` of a string, given the chosen quote
character `q`: backslash and the quote are escaped; newline, carriage
return and tab get their mnemonic escapes; every other non-printable
character is escaped as `\xXX`, `\uXXXX` or `\UXXXXXXXX` by codepoint
width; printable ASCII passes through.  (Real `repr` also passes
*printable* non-ASCII through; this model conservatively escapes all
non-ASCII, and the verbatim-containment theorems therefore restrict
their inputs to printable ASCII, where the model is exact.) -/
def pyEscapeChar (q : Char) (c : Char) : List Char :=
  if c = '\\' then ['\\', '\\']
  else if c = q then ['\\', q]
  else if c = Char.ofNat 10 then ['\\', 'n']
  else if c = Char.ofNat 13 then ['\\', 'r']
  else if c = Char.ofNat 9 then ['\\', 't']
  else if printableAscii c then [c]
  else if c.toNat < 256 then '\\' :: 'x' :: hexDigits 2 c.toNat
  else if c.toNat < 65536 then '\\' :: 'u' :: hexDigits 4 c.toNat
  else '\\' :: 'U' :: hexDigits 8 c.toNat

/-- Python `repr` quote choice: single quotes, unless the string contains
a single quote and no double quote. -/
def pyQuoteChar (s : String) : Char :=
  if squote ∈ s.data ∧ dquote ∉ s.data then dquote
  else squote

/-- Python `repr` of a string. -/
def pyRepr (s : String) : String :=
  let q := pyQuoteChar s
  ⟨q :: (s.data.map (pyEscapeChar q)).flatten ++ [q]⟩

/-- Python `sep.join(elems)`. -/
def pyJoin (sep : String) : List String → String
  | [] => ""
  | [x] => x
  | x :: y :: xs => x ++ sep ++ pyJoin sep (y :: xs)

/-- Python `str` of a tuple of strings:
`"(" + ", ".join(repr(e) for e in elems) + ")"`. -/
def pyStrTuple (elems : List String) : String :=
  "(" ++ pyJoin ", " (elems.map pyRepr) ++ ")"

/-- A character that Python `repr` renders as itself under either quote
choice: printable ASCII other than the backslash and the two quote
characters.  (Printable non-ASCII also survives real `repr` verbatim,
but the model escapes it — see `pyEscapeChar` — so it does not count as
plain here.) -/
def plainChar (c : Char) : Bool :=
  printableAscii c && !(c == '\\' || c == squote || c == dquote)

/-- The `instructions` tuple built in `initialize` (main.py lines 62-91),
as a list of its element strings; the schema string is interpolated into
the third element. -/
def instructionsList (schema : String) : List String :=
  [ "You are an advanced sales analysis assistant for Contoso, specializing in assisting users with sales data inquiries. Maintain a polite, professional, helpful, and friendly demeanor at all times.",
    "Use the `fetch_sales_data_using_sqlite_query` function to execute sales data queries, defaulting to aggregated data unless a detailed breakdown is requested. The function returns JSON-formatted results.",
    "Refer to the Contoso sales database schema: " ++ schema ++ ".",
    "When asked for \x27help,\x27 provide example queries such as:",
    "- \x27What was last quarter\x27s revenue?\x27",
    "- \x27Top-selling products in Europe?\x27",
    "- \x27Total shipping costs by region?\x27",
    "Responsibilities:",
    "1. Data Analysis: Provide clear insights based on available sales data.",
    "2. Visualizations: Generate charts or graphs to illustrate trends.",
    "3. Scope Awareness:",
    "   - For non-sales-related or out-of-scope questions, reply with:",
    "     \x27I\x27m unable to assist with that. Please contact IT for further assistance.\x27",
    "   - For help requests, suggest actionable and relevant questions.",
    "4. Handling Difficult Interactions:",
    "   - Remain calm and professional when dealing with upset or hostile users.",
    "   - Respond with: \x27I\x27m here to help with your sales data inquiries. If you need further assistance, please contact IT.\x27",
    "Conduct Guidelines:",
    "- Always maintain a professional and courteous tone.",
    "- Only use data from the Contoso sales database.",
    "- Avoid sharing sensitive or confidential information.",
    "- For questions outside your expertise or unclear queries, respond with:",
    "  \x27I\x27m unable to assist with that. Please ask more specific questions about Contoso sales or contact IT for help.\x27" ]

/-- Temperature of the second stream (0.2 in main.py line 159). -/
def turn2Temperature : ℚ := 1/5

/-- Completed external operations of `initialize`, with the parameters
the claims are about.  `turn` is 1 for the first agent-run variant
(main.py lines 96-127) and 2 for the second (lines 133-166). -/
inductive Op
  | connect
  | getDatabaseInfo
  | createAgent (turn : Nat) (name : String) (instructions : String)
      (tools : Option (List ToolDef))
  | createThread (turn : Nat)
  | createMessage (turn : Nat) (role : String) (content : String)
  | createStream (turn : Nat) (handlerTools : List ToolDef)
      (maxCompletionTokens maxPromptTokens : Nat) (temperature : Option ℚ)
  | untilDone (turn : Nat)
  | deleteThread (turn : Nat)
  | deleteAgent (turn : Nat)
  | logError (msg : String)
deriving DecidableEq

/-- The fourteen awaited calls of the `try` block of `initialize`
(main.py lines 95-166), in program order, with their actual arguments. -/
def tryOps (schema : String) : List Op :=
  [ Op.createAgent 1 "Contoso Sales Assistant" "You are a helpful assistant" none,
    Op.createThread 1,
    Op.createMessage 1 "user" "what is love in 100 words",
    Op.createStream 1 functions_definitions 10480 10480 none,
    Op.untilDone 1,
    Op.deleteThread 1,
    Op.deleteAgent 1,
    Op.createAgent 2 "Contoso Sales Assistant"
      (pyStrTuple (instructionsList schema)) (some functions_definitions),
    Op.createThread 2,
    Op.createMessage 2 "user" "What were the total sales by region for 2023",
    Op.createStream 2 functions_definitions 4096 4096 (some turn2Temperature),
    Op.untilDone 2,
    Op.deleteThread 2,
    Op.deleteAgent 2 ]

/-- Which external calls of a run of `initialize` raise an exception, and
what the schema string and exception message are.  `tryFailStep = some k`
means the `k`-th call of the try block (0-based index into `tryOps`)
raises; `none` means every call of the try block succeeds. -/
structure Env where
  connectFails : Bool
  getInfoFails : Bool
  schema : String
  tryFailStep : Option Nat
  errMsg : String

/-- How a call to `initialize` ends, as its caller sees it: a normal
return (the function returns `None`) or a propagated exception. -/
inductive InitResult
  | returned
  | raised (msg : String)
deriving DecidableEq

/-- One run of `initialize`: its trace of completed operations, its
result, and the value of `AGENT_READY` after the run. -/
structure InitRun where
  trace : List Op
  result : InitResult
  agentReadyAfter : Bool
deriving DecidableEq

/-- Prefix of the `logger.error` message (main.py lines 169-170). -/
def logPrefix : String := "An error occurred initializing the assistant: "

/-- `initialize` (main.py lines 53-170) as a function of the environment
and of the global `AGENT_READY` flag.  If the flag is set the function
returns at once (lines 56-57).  `sales_data.connect()` and
`sales_data.get_database_info()` run before the `try` block, so an
exception there propagates.  Inside the `try` block, execution stops at
the first raising call; the exception is caught and logged (lines
168-170) and the function returns normally.  `AGENT_READY` is read but
never assigned anywhere in main.py, so it is returned unchanged on every
path. -/
def initializeFn (env : Env) (agentReady : Bool) : InitRun :=
  if agentReady then ⟨[], InitResult.returned, agentReady⟩
  else if env.connectFails then ⟨[], InitResult.raised env.errMsg, agentReady⟩
  else if env.getInfoFails then
    ⟨[Op.connect], InitResult.raised env.errMsg, agentReady⟩
  else
    match env.tryFailStep with
    | some k =>
        if k < (tryOps env.schema).length then
          ⟨Op.connect :: Op.getDatabaseInfo ::
              ((tryOps env.schema).take k ++
                [Op.logError (logPrefix ++ env.errMsg)]),
            InitResult.returned, agentReady⟩
        else
          ⟨Op.connect :: Op.getDatabaseInfo :: tryOps env.schema,
            InitResult.returned, agentReady⟩
    | none =>
        ⟨Op.connect :: Op.getDatabaseInfo :: tryOps env.schema,
          InitResult.returned, agentReady⟩

/-- The `__main__` block (main.py lines 173-177): one call to
`initialize` starting from `AGENT_READY = False`. -/
def programRun (env : Env) : InitRun := initializeFn env false

/-- Process exit status of the script: `exit(0)` on line 177 runs when
`asyncio.run(initialize())` returns; an exception escaping it terminates
the interpreter with its default nonzero status 1. -/
def programExitCode (env : Env) : Nat :=
  match (programRun env).result with
  | InitResult.returned => 0
  | InitResult.raised _ => 1

/-- Which streamed turn an operation belongs to (`none` for the
setup calls and the log). -/
def Op.turn : Op → Option Nat
  | Op.createAgent n _ _ _ => some n
  | Op.createThread n => some n
  | Op.createMessage n _ _ => some n
  | Op.createStream n _ _ _ _ => some n
  | Op.untilDone n => some n
  | Op.deleteThread n => some n
  | Op.deleteAgent n => some n
  | _ => none

/-- The kind of an operation, forgetting its arguments. -/
inductive OpKind
  | connect
  | getDatabaseInfo
  | createAgent
  | createThread
  | createMessage
  | createStream
  | untilDone
  | deleteThread
  | deleteAgent
  | logError
deriving DecidableEq

/-- Forget the arguments of an operation. -/
def Op.kind : Op → OpKind
  | Op.connect => OpKind.connect
  | Op.getDatabaseInfo => OpKind.getDatabaseInfo
  | Op.createAgent _ _ _ _ => OpKind.createAgent
  | Op.createThread _ => OpKind.createThread
  | Op.createMessage _ _ _ => OpKind.createMessage
  | Op.createStream _ _ _ _ _ => OpKind.createStream
  | Op.untilDone _ => OpKind.untilDone
  | Op.deleteThread _ => OpKind.deleteThread
  | Op.deleteAgent _ => OpKind.deleteAgent
  | Op.logError _ => OpKind.logError

/-- The `tools` argument of a create-agent operation (`none` when the
`tools` parameter was not passed; junk `none` on other operations). -/
def Op.agentTools : Op → Option (List ToolDef)
  | Op.createAgent _ _ _ tl => tl
  | _ => none

/-- The `temperature` argument of a create-stream operation. -/
def Op.streamTemperature : Op → Option ℚ
  | Op.createStream _ _ _ _ t => t
  | _ => none

/-- Recognizer: delete-thread operation of turn `n`. -/
def isDeleteThread (n : Nat) : Op → Bool
  | Op.deleteThread m => m == n
  | _ => false

/-- Recognizer: delete-agent operation of turn `n`. -/
def isDeleteAgent (n : Nat) : Op → Bool
  | Op.deleteAgent m => m == n
  | _ => false

/-- Recognizer: create-thread operation of turn `n`. -/
def isCreateThread (n : Nat) : Op → Bool
  | Op.createThread m => m == n
  | _ => false

/-- Recognizer: create-agent operation of turn `n`. -/
def isCreateAgent (n : Nat) : Op → Bool
  | Op.createAgent m _ _ _ => m == n
  | _ => false

/-- Recognizer: the schema-introspection call. -/
def isGetDatabaseInfo : Op → Bool
  | Op.getDatabaseInfo => true
  | _ => false

/-- Recognizer: a `logger.error` call. -/
def isLogError : Op → Bool
  | Op.logError _ => true
  | _ => false

/-- A tool call requested by the remote agent in one batch. -/
structure ToolCallRequest where
  call_id : String
  tool_name : String
  arguments : String
deriving DecidableEq

/-- The output submitted back to the stream for one tool call. -/
structure ToolCallResult where
  call_id : String
  output : String
deriving DecidableEq

/-- Modelled from the spec: the tool-call path of the StreamEventBridge
(`MyEventHandler` — imported on main.py line 17 but its source file is
missing from the repository snapshot).  Per spec section 4.3, on a batch
of tool-call-requested events the bridge resolves each named function
through the registry (`invoke`), executes the calls — their executions
may complete in any order, given by `order`, a permutation of the batch
positions — and builds one ToolCallResult per call_id of the batch,
answered in the same submission. -/
def bridgeSubmit (invoke : String → String → String)
    (batch : List ToolCallRequest) (order : List Nat) :
    List ToolCallResult :=
  order.filterMap fun i =>
    (batch[i]?).map fun r =>
      ⟨r.call_id, invoke r.tool_name r.arguments⟩

/-- Modelled from the spec: observable bridge events for one batch — the
submission of each result, and the signal that the stream is drained. -/
inductive BridgeEv
  | submit (r : ToolCallResult)
  | drained
deriving DecidableEq

/-- Modelled from the spec: the bridge submits all results of the batch
and only afterwards signals run completion (stream drained). -/
def bridgeTrace (invoke : String → String → String)
    (batch : List ToolCallRequest) (order : List Nat) : List BridgeEv :=
  (bridgeSubmit invoke batch order).map BridgeEv.submit ++ [BridgeEv.drained]

/-- Reading off every position of a list through `getElem?` recovers the
list. -/
theorem filterMap_getElem_range {α β : Type} (l : List α) (f : α → β) :
    (List.range l.length).filterMap (fun i => (l[i]?).map f) = l.map f := by
  induction l with
  | nil => simp
  | cons a t ih =>
    rw [List.length_cons, List.range_succ_eq_map]
    simp only [List.filterMap_cons, List.getElem?_cons_zero,
      Option.map_some', List.filterMap_map]
    rw [List.map_cons]
    congr 1
    rw [← ih]
    apply List.filterMap_congr
    intro i _
    simp [Function.comp]

/-! ### Python string-repr lemmas -/

/-- The quote characters are not plain. -/
theorem plainChar_squote : plainChar squote = false := by decide

/-- A plain character escapes to itself under either quote choice. -/
theorem pyEscapeChar_plain (q c : Char) (hc : plainChar c = true)
    (hq : q = squote ∨ q = dquote) : pyEscapeChar q c = [c] := by
  have hp : printableAscii c = true := by
    simp only [plainChar, Bool.and_eq_true] at hc
    exact hc.1
  have hbs : ¬(c = '\\') := fun h => absurd hc (by rw [h]; decide)
  have hsq : ¬(c = squote) := fun h => absurd hc (by rw [h]; decide)
  have hdq : ¬(c = dquote) := fun h => absurd hc (by rw [h]; decide)
  have h10 : ¬(c = Char.ofNat 10) := fun h => absurd hc (by rw [h]; decide)
  have h13 : ¬(c = Char.ofNat 13) := fun h => absurd hc (by rw [h]; decide)
  have h9 : ¬(c = Char.ofNat 9) := fun h => absurd hc (by rw [h]; decide)
  rcases hq with rfl | rfl <;>
    simp [pyEscapeChar, hbs, hsq, hdq, h10, h13, h9, hp]

/-- Escaping a list of plain characters is the identity. -/
theorem pyEscape_plain_flatten (q : Char) (hq : q = squote ∨ q = dquote)
    (l : List Char) (h : ∀ c ∈ l, plainChar c = true) :
    (l.map (pyEscapeChar q)).flatten = l := by
  induction l with
  | nil => rfl
  | cons c t ih =>
    rw [List.map_cons, List.flatten_cons,
      pyEscapeChar_plain q c (h c (List.mem_cons_self c t)) hq,
      ih (fun d hd => h d (List.mem_cons_of_mem c hd))]
    rfl

/-- A string of plain characters is repr-ed with single quotes. -/
theorem pyQuoteChar_plain (s : String)
    (h : ∀ c ∈ s.data, plainChar c = true) : pyQuoteChar s = squote := by
  rw [pyQuoteChar, if_neg]
  rintro ⟨h1, -⟩
  have hv := h squote h1
  rw [plainChar_squote] at hv
  exact Bool.false_ne_true hv

/-- Python repr of a string of plain characters just wraps it in single
quotes. -/
theorem pyRepr_plain (s : String) (h : ∀ c ∈ s.data, plainChar c = true) :
    (pyRepr s).data = squote :: s.data ++ [squote] := by
  simp only [pyRepr, pyQuoteChar_plain s h]
  rw [pyEscape_plain_flatten squote (Or.inl rfl) s.data h]

/-- The interpolated middle of a plain string survives `repr` as a
contiguous substring. -/
theorem schema_infix_pyRepr (a b s : String)
    (ha : ∀ c ∈ a.data, plainChar c = true)
    (hb : ∀ c ∈ b.data, plainChar c = true)
    (hs : ∀ c ∈ s.data, plainChar c = true) :
    s.data <:+: (pyRepr (a ++ s ++ b)).data := by
  have hall : ∀ c ∈ (a ++ s ++ b).data, plainChar c = true := by
    intro c hc
    rw [String.data_append, String.data_append] at hc
    rcases List.mem_append.mp hc with hc | hc
    · rcases List.mem_append.mp hc with hc | hc
      · exact ha c hc
      · exact hs c hc
    · exact hb c hc
  rw [pyRepr_plain _ hall, String.data_append, String.data_append]
  exact ⟨squote :: a.data, b.data ++ [squote], by simp⟩

/-- `pyJoin` of a cons with a nonempty tail. -/
theorem pyJoin_cons (sep x : String) (l : List String) (hl : l ≠ []) :
    pyJoin sep (x :: l) = x ++ sep ++ pyJoin sep l := by
  cases l with
  | nil => exact absurd rfl hl
  | cons y ys => rfl

/-- An element of a joined list is a contiguous substring of the join. -/
theorem mem_infix_pyJoin (sep x : String) (pre post : List String) :
    x.data <:+: (pyJoin sep (pre ++ x :: post)).data := by
  induction pre with
  | nil =>
    cases post with
    | nil => exact ⟨[], [], by simp [pyJoin]⟩
    | cons y ys =>
      rw [List.nil_append, pyJoin_cons sep x (y :: ys) (by simp),
        String.data_append, String.data_append]
      exact ⟨[], sep.data ++ (pyJoin sep (y :: ys)).data, by simp⟩
  | cons p pre ih =>
    rw [List.cons_append, pyJoin_cons sep p (pre ++ x :: post) (by simp),
      String.data_append, String.data_append]
    obtain ⟨u, v, huv⟩ := ih
    exact ⟨p.data ++ sep.data ++ u, v, by rw [← huv]; simp⟩

/-- The repr of an element of a tuple is a contiguous substring of the
Python `str` of the tuple. -/
theorem pyRepr_infix_pyStrTuple (x : String) (l : List String)
    (hx : x ∈ l) : (pyRepr x).data <:+: (pyStrTuple l).data := by
  obtain ⟨pre, post, rfl⟩ := List.append_of_mem hx
  rw [pyStrTuple, String.data_append, String.data_append,
    List.map_append, List.map_cons]
  obtain ⟨u, v, huv⟩ :=
    mem_infix_pyJoin ", " (pyRepr x) (pre.map pyRepr) (post.map pyRepr)
  refine ⟨"(".data ++ u, v ++ ")".data, ?_⟩
  rw [← huv]
  simp

/-- A plain schema string appears verbatim inside the Python `str` of the
instructions tuple. -/
theorem schema_infix_instructions (schema : String)
    (h : ∀ c ∈ schema.data, plainChar c = true) :
    schema.data <:+: (pyStrTuple (instructionsList schema)).data := by
  have h1 : schema.data <:+:
      (pyRepr ("Refer to the Contoso sales database schema: " ++
        schema ++ ".")).data :=
    schema_infix_pyRepr _ _ _ (by decide) (by decide) h
  have h2 : (pyRepr ("Refer to the Contoso sales database schema: " ++
      schema ++ ".")).data <:+: (pyStrTuple (instructionsList schema)).data :=
    pyRepr_infix_pyStrTuple _ _ (by simp [instructionsList])
  exact h1.trans h2

/-! ### Trace-shape lemmas for `initializeFn` -/

/-- The try block makes fourteen calls. -/
theorem tryOps_length (schema : String) : (tryOps schema).length = 14 := rfl

/-- Trace of a fully successful first run. -/
theorem initializeFn_success_trace (env : Env)
    (hc : env.connectFails = false) (hg : env.getInfoFails = false)
    (hf : env.tryFailStep = none) :
    initializeFn env false =
      ⟨Op.connect :: Op.getDatabaseInfo :: tryOps env.schema,
        InitResult.returned, false⟩ := by
  simp [initializeFn, hc, hg, hf]

/-- Trace of a first run whose `k`-th try-block call raises. -/
theorem initializeFn_caught_trace (env : Env) (k : Nat)
    (hc : env.connectFails = false) (hg : env.getInfoFails = false)
    (hf : env.tryFailStep = some k) (hk : k < 14) :
    initializeFn env false =
      ⟨Op.connect :: Op.getDatabaseInfo ::
          ((tryOps env.schema).take k ++
            [Op.logError (logPrefix ++ env.errMsg)]),
        InitResult.returned, false⟩ := by
  simp [initializeFn, hc, hg, hf, tryOps_length, hk]

/-- Every operation of any first-run trace is the connect call, the
schema call, the logged error, or one of the fourteen try-block calls. -/
theorem trace_ops_mem (env : Env) (o : Op)
    (ho : o ∈ (initializeFn env false).trace) :
    o ∈ Op.connect :: Op.getDatabaseInfo ::
        Op.logError (logPrefix ++ env.errMsg) :: tryOps env.schema := by
  by_cases hc : env.connectFails
  · simp [initializeFn, hc] at ho
  · by_cases hg : env.getInfoFails
    · simp [initializeFn, hc, hg] at ho
      simp [ho]
    · rcases hf : env.tryFailStep with _ | k
      · rw [initializeFn_success_trace env (by simpa using hc)
          (by simpa using hg) hf] at ho
        simp only [List.mem_cons] at ho ⊢
        tauto
      · by_cases hk : k < 14
        · rw [initializeFn_caught_trace env k (by simpa using hc)
            (by simpa using hg) hf hk] at ho
          simp only [List.mem_cons, List.mem_append,
            List.mem_singleton] at ho ⊢
          rcases ho with rfl | rfl | ho | rfl | hemp
          · tauto
          · tauto
          · have := List.take_subset k (tryOps env.schema) ho
            tauto
          · tauto
          · simp at hemp
        · have heq : initializeFn env false =
              ⟨Op.connect :: Op.getDatabaseInfo :: tryOps env.schema,
                InitResult.returned, false⟩ := by
            simp [initializeFn, hc, hg, hf, tryOps_length, hk]
          rw [heq] at ho
          simp only [List.mem_cons] at ho ⊢
          tauto

/-- No try-block call is a log call. -/
theorem countP_isLogError_tryOps (schema : String) :
    (tryOps schema).countP isLogError = 0 := by
  simp [tryOps, List.countP_cons, isLogError]

/-- No prefix of the try-block calls contains a log call. -/
theorem countP_isLogError_take (schema : String) (k : Nat) :
    ((tryOps schema).take k).countP isLogError = 0 :=
  Nat.le_zero.mp (countP_isLogError_tryOps schema ▸
    (List.take_sublist k (tryOps schema)).countP_le isLogError)

/-- Once the data-store setup has succeeded, `initialize` returns
normally whatever happens in the try block. -/
theorem initializeFn_returns (env : Env) (hc : env.connectFails = false)
    (hg : env.getInfoFails = false) :
    (initializeFn env false).result = InitResult.returned := by
  rcases hf : env.tryFailStep with _ | k
  · rw [initializeFn_success_trace env hc hg hf]
  · by_cases hk : k < 14
    · rw [initializeFn_caught_trace env k hc hg hf hk]
    · simp [initializeFn, hc, hg, hf, tryOps_length, hk]

/-- A run whose try block raises logs exactly one error. -/
theorem caught_countP_isLogError (env : Env) (k : Nat)
    (hc : env.connectFails = false) (hg : env.getInfoFails = false)
    (hf : env.tryFailStep = some k) (hk : k < 14) :
    (initializeFn env false).trace.countP isLogError = 1 := by
  rw [initializeFn_caught_trace env k hc hg hf hk]
  simp [List.countP_cons, List.countP_append, countP_isLogError_take,
    isLogError]

/-- The first eleven try-block calls: everything up to and including the
creation of the second stream (whose `until_done` is call 11). -/
theorem tryOps_take11 (s : String) :
    (tryOps s).take 11 =
      [ Op.createAgent 1 "Contoso Sales Assistant"
          "You are a helpful assistant" none,
        Op.createThread 1,
        Op.createMessage 1 "user" "what is love in 100 words",
        Op.createStream 1 functions_definitions 10480 10480 none,
        Op.untilDone 1,
        Op.deleteThread 1,
        Op.deleteAgent 1,
        Op.createAgent 2 "Contoso Sales Assistant"
          (pyStrTuple (instructionsList s)) (some functions_definitions),
        Op.createThread 2,
        Op.createMessage 2 "user"
          "What were the total sales by region for 2023",
        Op.createStream 2 functions_definitions 4096 4096
          (some turn2Temperature) ] := rfl

/-! ### Claim theorems -/

/-- C10: exceptions raised by the data-store setup calls
(`sales_data.connect()` and `sales_data.get_database_info()`, main.py
lines 59-60), which run before the try block of `initialize`, propagate
uncaught out of `initialize`; only exceptions raised inside the try
block — from agent creation onwards — are caught (the run then returns
normally) and logged. -/
theorem C10_setup_exceptions_propagate (env : Env) :
    (env.connectFails = true →
      (initializeFn env false).result = InitResult.raised env.errMsg) ∧
    (env.connectFails = false → env.getInfoFails = true →
      (initializeFn env false).result = InitResult.raised env.errMsg) ∧
    (env.connectFails = false → env.getInfoFails = false →
      (initializeFn env false).result = InitResult.returned) ∧
    (∀ k, env.connectFails = false → env.getInfoFails = false →
      env.tryFailStep = some k → k < 14 →
      (initializeFn env false).trace.countP isLogError = 1) := by
  refine ⟨fun hc => ?_, fun hc hg => ?_, fun hc hg => ?_,
    fun k hc hg hf hk => ?_⟩
  · simp [initializeFn, hc]
  · simp [initializeFn, hc, hg]
  · exact initializeFn_returns env hc hg
  · exact caught_countP_isLogError env k hc hg hf hk

/-- Witness for C10: with a failing `connect` the run raises; with a
failing first try-block call the run logs exactly one error. -/
theorem C10_setup_exceptions_propagate_witness :
    (initializeFn ⟨true, false, "S", none, "no database"⟩ false).result =
      InitResult.raised "no database" ∧
    (initializeFn ⟨false, false, "S", some 0, "boom"⟩ false).trace.countP
      isLogError = 1 :=
  ⟨(C10_setup_exceptions_propagate ⟨true, false, "S", none,
      "no database"⟩).1 rfl,
   (C10_setup_exceptions_propagate ⟨false, false, "S", some 0,
      "boom"⟩).2.2.2 0 rfl rfl rfl (by decide)⟩

/-- C9: the claim that `initialize` is idempotent via the AGENT_READY
flag is violated by the code: the flag is initialized False (main.py
line 24) and read as a guard (lines 55-57) but no statement ever assigns
it True, so after a first fully successful call a second call re-runs
the entire initialization (it creates the first agent again and its
trace is nonempty) instead of returning immediately.  The final conjunct
shows the guard itself works: were the flag ever set, a call would do
nothing. -/
theorem C9_ready_flag_never_set :
    (initializeFn ⟨false, false, "S", none, ""⟩ false).agentReadyAfter
      = false ∧
    (initializeFn ⟨false, false, "S", none, ""⟩
      (initializeFn ⟨false, false, "S", none, ""⟩
        false).agentReadyAfter).trace.countP (isCreateAgent 1) = 1 ∧
    (initializeFn ⟨false, false, "S", none, ""⟩
      (initializeFn ⟨false, false, "S", none, ""⟩
        false).agentReadyAfter).trace ≠ [] ∧
    (initializeFn ⟨false, false, "S", none, ""⟩ true).trace = [] := by
  decide

/-- Counterexample for C4: when `sales_data.connect()` raises, the
exception escapes `initialize` and `asyncio.run`, the interpreter aborts
before reaching `exit(0)`, and the process exit status is 1, not 0. -/
theorem C4_connect_failure_exit_nonzero :
    programExitCode ⟨true, false, "S", none, "database unreachable"⟩ = 1 ∧
    programExitCode ⟨true, false, "S", none, "database unreachable"⟩ ≠ 0 := by
  decide

/-- C4 (amended): the process exit code is 0 on normal completion and on
every failure caught inside the try block of `initialize` (failure paths
there are not distinguished by a non-zero exit code); but an exception
raised by the pre-try data-store setup escapes and ends the process with
the interpreter's non-zero status. -/
theorem C4_exit_zero_when_setup_succeeds (env : Env)
    (hc : env.connectFails = false) (hg : env.getInfoFails = false) :
    programExitCode env = 0 := by
  rw [programExitCode, programRun, initializeFn_returns env hc hg]

/-- Witness for C4: a run whose second stream fails still exits 0. -/
theorem C4_exit_zero_when_setup_succeeds_witness :
    programExitCode ⟨false, false, "S", some 11, "stream failure"⟩ = 0 :=
  C4_exit_zero_when_setup_succeeds
    ⟨false, false, "S", some 11, "stream failure"⟩ rfl rfl

/-- Counterexample for C3: a stream failure during the first turn is not
surfaced to the caller of `initialize` — the call returns normally, and
its caller-visible outcome is identical to that of a fully successful
run, so the caller cannot observe that the turn failed. -/
theorem C3_failure_not_surfaced :
    (initializeFn ⟨false, false, "S", some 4, "stream dropped"⟩
      false).result = InitResult.returned ∧
    (initializeFn ⟨false, false, "S", some 4, "stream dropped"⟩
      false).result =
      (initializeFn ⟨false, false, "S", none, ""⟩ false).result := by
  decide

/-- C3 (amended): every exception raised during streaming inside a turn
is caught and logged exactly once via `logger.error` with the aggregated
message; `initialize` then returns normally, so the failure is recorded
only in the log and is not surfaced to the caller. -/
theorem C3_caught_and_logged (env : Env) (k : Nat)
    (hc : env.connectFails = false) (hg : env.getInfoFails = false)
    (hf : env.tryFailStep = some k) (hk : k < 14) :
    Op.logError (logPrefix ++ env.errMsg) ∈ (initializeFn env false).trace ∧
    (initializeFn env false).trace.countP isLogError = 1 ∧
    (initializeFn env false).result = InitResult.returned := by
  refine ⟨?_, caught_countP_isLogError env k hc hg hf hk,
    initializeFn_returns env hc hg⟩
  rw [initializeFn_caught_trace env k hc hg hf hk]
  simp

/-- Witness for C3: the second stream raises; the error is logged and
the run returns normally. -/
theorem C3_caught_and_logged_witness :
    Op.logError (logPrefix ++ "stream reset") ∈
      (initializeFn ⟨false, false, "S", some 11, "stream reset"⟩
        false).trace ∧
    (initializeFn ⟨false, false, "S", some 11, "stream reset"⟩
      false).trace.countP isLogError = 1 ∧
    (initializeFn ⟨false, false, "S", some 11, "stream reset"⟩
      false).result = InitResult.returned :=
  C3_caught_and_logged ⟨false, false, "S", some 11, "stream reset"⟩ 11
    rfl rfl rfl (by decide)

/-- Counterexample for C1: inject a forced stream failure in the second
turn (`until_done`, try-block call 11, raises).  The turn's thread and
agent have been created, but neither delete call runs — deletion does
not occur on this failure exit path. -/
theorem C1_stream_failure_skips_deletion :
    Op.createThread 2 ∈
      (initializeFn ⟨false, false, "S", some 11, "stream failure"⟩
        false).trace ∧
    (initializeFn ⟨false, false, "S", some 11, "stream failure"⟩
      false).trace.countP (isCreateAgent 2) = 1 ∧
    (initializeFn ⟨false, false, "S", some 11, "stream failure"⟩
      false).trace.countP (isDeleteThread 2) = 0 ∧
    (initializeFn ⟨false, false, "S", some 11, "stream failure"⟩
      false).trace.countP (isDeleteAgent 2) = 0 := by
  decide

/-- C1 (amended): on the all-success exit path each thread and agent
created by `initialize` is deleted exactly once; but on a failure exit
path deletion is skipped for any session whose delete calls have not yet
run — e.g. a forced stream failure in the second turn leaves that turn's
thread and agent undeleted (the first turn's, already torn down, stay
deleted exactly once). -/
theorem C1_cleanup_success_path_only (env : Env)
    (hc : env.connectFails = false) (hg : env.getInfoFails = false) :
    (env.tryFailStep = none →
      (initializeFn env false).trace.countP (isDeleteThread 1) = 1 ∧
      (initializeFn env false).trace.countP (isDeleteAgent 1) = 1 ∧
      (initializeFn env false).trace.countP (isDeleteThread 2) = 1 ∧
      (initializeFn env false).trace.countP (isDeleteAgent 2) = 1) ∧
    (env.tryFailStep = some 11 →
      (initializeFn env false).trace.countP (isCreateThread 2) = 1 ∧
      (initializeFn env false).trace.countP (isDeleteThread 2) = 0 ∧
      (initializeFn env false).trace.countP (isDeleteAgent 2) = 0 ∧
      (initializeFn env false).trace.countP (isDeleteThread 1) = 1 ∧
      (initializeFn env false).trace.countP (isDeleteAgent 1) = 1) := by
  constructor
  · intro hf
    rw [initializeFn_success_trace env hc hg hf]
    refine ⟨?_, ?_, ?_, ?_⟩ <;>
      simp [tryOps, List.countP_cons, isDeleteThread, isDeleteAgent]
  · intro hf
    rw [initializeFn_caught_trace env 11 hc hg hf (by decide),
      tryOps_take11]
    refine ⟨?_, ?_, ?_, ?_, ?_⟩ <;>
      simp [List.countP_cons, List.countP_append, isCreateThread,
        isDeleteThread, isDeleteAgent, isLogError]

/-- Witness for C1: on a fully successful run both sessions are deleted
exactly once. -/
theorem C1_cleanup_success_path_only_witness :
    (initializeFn ⟨false, false, "S", none, ""⟩ false).trace.countP
        (isDeleteThread 1) = 1 ∧
    (initializeFn ⟨false, false, "S", none, ""⟩ false).trace.countP
        (isDeleteAgent 1) = 1 ∧
    (initializeFn ⟨false, false, "S", none, ""⟩ false).trace.countP
        (isDeleteThread 2) = 1 ∧
    (initializeFn ⟨false, false, "S", none, ""⟩ false).trace.countP
        (isDeleteAgent 2) = 1 :=
  (C1_cleanup_success_path_only ⟨false, false, "S", none, ""⟩
    rfl rfl).1 rfl

/-- Counterexample for C5: the two agent-run variants do not differ only
in prompt text and token limits.  In the try-block call sequence, the
first variant's stream sets no temperature while the second sets 0.2;
the first variant's agent is created without a `tools` argument while
the second attaches the function-tool definitions; and the two user
messages have different content. -/
theorem C5_variants_differ_beyond_prompt :
    ((tryOps "S")[3]?).map Op.streamTemperature ≠
      ((tryOps "S")[10]?).map Op.streamTemperature ∧
    ((tryOps "S")[0]?).map Op.agentTools ≠
      ((tryOps "S")[7]?).map Op.agentTools ∧
    (tryOps "S")[2]? ≠ (tryOps "S")[9]? := by
  refine ⟨by decide, by decide, ?_⟩
  intro h
  simp only [tryOps] at h
  rw [List.getElem?_cons_succ, List.getElem?_cons_succ,
    List.getElem?_cons_zero] at h
  simp at h

/-- C5 (amended): the two agent-run variants execute the same lifecycle
step sequence (create agent, create thread, create message, create
stream, drive to completion, delete thread, delete agent) with the same
agent name and the same event-handler tool set; they differ in prompt
text and token limits and additionally in the attached tool set (no
`tools` argument vs the function-tool definitions), in temperature
(unset vs 0.2) and in user-message content. -/
theorem C5_variant_differences (env : Env)
    (hc : env.connectFails = false) (hg : env.getInfoFails = false)
    (hf : env.tryFailStep = none) :
    ((initializeFn env false).trace.filter
        (fun o => Op.turn o == some 1)).map Op.kind =
      ((initializeFn env false).trace.filter
        (fun o => Op.turn o == some 2)).map Op.kind ∧
    Op.createAgent 1 "Contoso Sales Assistant"
        "You are a helpful assistant" none ∈
      (initializeFn env false).trace ∧
    Op.createAgent 2 "Contoso Sales Assistant"
        (pyStrTuple (instructionsList env.schema))
        (some functions_definitions) ∈
      (initializeFn env false).trace ∧
    Op.createStream 1 functions_definitions 10480 10480 none ∈
      (initializeFn env false).trace ∧
    Op.createStream 2 functions_definitions 4096 4096
        (some turn2Temperature) ∈
      (initializeFn env false).trace ∧
    Op.createMessage 1 "user" "what is love in 100 words" ∈
      (initializeFn env false).trace ∧
    Op.createMessage 2 "user"
        "What were the total sales by region for 2023" ∈
      (initializeFn env false).trace := by
  rw [initializeFn_success_trace env hc hg hf]
  exact ⟨rfl, by simp [tryOps], by simp [tryOps], by simp [tryOps],
    by simp [tryOps], by simp [tryOps], by simp [tryOps]⟩

/-- Witness for C5 at a concrete schema. -/
theorem C5_variant_differences_witness :
    ((initializeFn ⟨false, false, "S", none, ""⟩ false).trace.filter
        (fun o => Op.turn o == some 1)).map Op.kind =
      ((initializeFn ⟨false, false, "S", none, ""⟩ false).trace.filter
        (fun o => Op.turn o == some 2)).map Op.kind ∧
    Op.createStream 1 functions_definitions 10480 10480 none ∈
      (initializeFn ⟨false, false, "S", none, ""⟩ false).trace ∧
    Op.createStream 2 functions_definitions 4096 4096
        (some turn2Temperature) ∈
      (initializeFn ⟨false, false, "S", none, ""⟩ false).trace :=
  ⟨(C5_variant_differences ⟨false, false, "S", none, ""⟩ rfl rfl rfl).1,
   (C5_variant_differences ⟨false, false, "S", none, ""⟩
      rfl rfl rfl).2.2.2.1,
   (C5_variant_differences ⟨false, false, "S", none, ""⟩
      rfl rfl rfl).2.2.2.2.1⟩

/-- C6: on a turn that runs to completion the orchestrator performs its
steps in order — create the session (agent then thread), post the user
text as a message, open the stream configured with the event-handler
tool set and the limits (max completion/prompt tokens; temperature 0.2
on the tool-calling turn), drive it to completion, then delete the
session (thread then agent).  Stated for both streamed turns of
`initialize`; the claim's cited code is the second. -/
theorem C6_turn_step_order (env : Env)
    (hc : env.connectFails = false) (hg : env.getInfoFails = false)
    (hf : env.tryFailStep = none) :
    ((initializeFn env false).trace.filter
        (fun o => Op.turn o == some 2)).map Op.kind =
      [OpKind.createAgent, OpKind.createThread, OpKind.createMessage,
       OpKind.createStream, OpKind.untilDone, OpKind.deleteThread,
       OpKind.deleteAgent] ∧
    ((initializeFn env false).trace.filter
        (fun o => Op.turn o == some 1)).map Op.kind =
      [OpKind.createAgent, OpKind.createThread, OpKind.createMessage,
       OpKind.createStream, OpKind.untilDone, OpKind.deleteThread,
       OpKind.deleteAgent] ∧
    Op.createMessage 2 "user"
        "What were the total sales by region for 2023" ∈
      (initializeFn env false).trace ∧
    Op.createStream 2 functions_definitions 4096 4096
        (some turn2Temperature) ∈ (initializeFn env false).trace := by
  rw [initializeFn_success_trace env hc hg hf]
  exact ⟨rfl, rfl, by simp [tryOps], by simp [tryOps]⟩

/-- Witness for C6 at a concrete schema. -/
theorem C6_turn_step_order_witness :
    ((initializeFn ⟨false, false, "S", none, ""⟩ false).trace.filter
        (fun o => Op.turn o == some 2)).map Op.kind =
      [OpKind.createAgent, OpKind.createThread, OpKind.createMessage,
       OpKind.createStream, OpKind.untilDone, OpKind.deleteThread,
       OpKind.deleteAgent] ∧
    Op.createStream 2 functions_definitions 4096 4096
        (some turn2Temperature) ∈
      (initializeFn ⟨false, false, "S", none, ""⟩ false).trace :=
  ⟨(C6_turn_step_order ⟨false, false, "S", none, ""⟩ rfl rfl rfl).1,
   (C6_turn_step_order ⟨false, false, "S", none, ""⟩ rfl rfl rfl).2.2.2⟩

/-- C7: on a successful run the database schema description is computed
exactly once (a single `get_database_info` call); the binding is never
modified (the very string delivered at startup is the one interpolated);
and the system instructions the sales agent is created with — the Python
`str` of the instructions tuple — contain that schema description
verbatim, provided the schema contains no character Python's repr
escapes. -/
theorem C7_schema_once_in_instructions (env : Env)
    (hc : env.connectFails = false) (hg : env.getInfoFails = false)
    (hf : env.tryFailStep = none)
    (hplain : ∀ c ∈ env.schema.data, plainChar c = true) :
    (initializeFn env false).trace.countP isGetDatabaseInfo = 1 ∧
    Op.createAgent 2 "Contoso Sales Assistant"
        (pyStrTuple (instructionsList env.schema))
        (some functions_definitions) ∈ (initializeFn env false).trace ∧
    env.schema.data <:+: (pyStrTuple (instructionsList env.schema)).data := by
  rw [initializeFn_success_trace env hc hg hf]
  exact ⟨by simp [tryOps, List.countP_cons, isGetDatabaseInfo],
    by simp [tryOps],
    schema_infix_instructions env.schema hplain⟩

/-- Witness for C7 at a concrete schema description. -/
theorem C7_schema_once_in_instructions_witness :
    (initializeFn ⟨false, false,
        "Table sales columns id region revenue", none, ""⟩
      false).trace.countP isGetDatabaseInfo = 1 ∧
    Op.createAgent 2 "Contoso Sales Assistant"
        (pyStrTuple (instructionsList
          "Table sales columns id region revenue"))
        (some functions_definitions) ∈
      (initializeFn ⟨false, false,
        "Table sales columns id region revenue", none, ""⟩ false).trace ∧
    ("Table sales columns id region revenue" : String).data <:+:
      (pyStrTuple (instructionsList
        "Table sales columns id region revenue")).data :=
  C7_schema_once_in_instructions
    ⟨false, false, "Table sales columns id region revenue", none, ""⟩
    rfl rfl rfl (by decide)

/-- Counterexample for C8: the module-level tool set does contain the
code-interpreter tool, but it is never attached: the sales agent is
created with exactly the function-tool definitions, which do not contain
the code interpreter. -/
theorem C8_code_interpreter_never_attached :
    ToolDef.codeInterpreter ∈ toolset ∧
    ((tryOps "S")[7]?).map Op.agentTools =
      some (some [ToolDef.fetchSalesDataFunction]) ∧
    ToolDef.codeInterpreter ∉ functions_definitions := by
  decide

/-- C8 (amended): the module-level tool set collects the SQL function
tool and the code-interpreter tool, but no agent creation in any run
attaches the code interpreter: every create-agent operation carries
either no tools or exactly the function-tool definitions. -/
theorem C8_agent_tools_function_only (env : Env) (ready : Bool) :
    ∀ o ∈ (initializeFn env ready).trace,
      ToolDef.codeInterpreter ∉ (Op.agentTools o).getD [] ∧
      (isCreateAgent 2 o = true →
        Op.agentTools o = some functions_definitions) := by
  intro o ho
  cases ready
  · have hmem := trace_ops_mem env o ho
    simp only [List.mem_cons] at hmem
    rcases hmem with rfl | rfl | rfl | h
    · exact ⟨by simp [Op.agentTools], by simp [isCreateAgent]⟩
    · exact ⟨by simp [Op.agentTools], by simp [isCreateAgent]⟩
    · exact ⟨by simp [Op.agentTools], by simp [isCreateAgent]⟩
    · simp only [tryOps, List.mem_cons] at h
      rcases h with rfl | rfl | rfl | rfl | rfl | rfl | rfl | rfl | rfl |
        rfl | rfl | rfl | rfl | rfl | habs
      all_goals first
        | simp at habs
        | simp [Op.agentTools, isCreateAgent, functions_definitions]
  · simp [initializeFn] at ho

/-- Witness for C8: the sales agent creation of a concrete successful
run carries no code-interpreter tool. -/
theorem C8_agent_tools_function_only_witness :
    ToolDef.codeInterpreter ∉
      (Op.agentTools (Op.createAgent 2 "Contoso Sales Assistant"
        (pyStrTuple (instructionsList "S"))
        (some functions_definitions))).getD [] :=
  (C8_agent_tools_function_only ⟨false, false, "S", none, ""⟩ false
    (Op.createAgent 2 "Contoso Sales Assistant"
      (pyStrTuple (instructionsList "S")) (some functions_definitions))
    (by simp [initializeFn, tryOps])).1

/-- C2: for a stream producing a batch of N tool-call-requested events,
the bridge (modelled from the spec, as `my_event_handler.py` is not in
the repository snapshot) submits exactly N ToolCallResults whose
call_ids match the requested calls, before the drained signal, whatever
order the tool executions complete in. -/
theorem C2_bridge_submits_all (invoke : String → String → String)
    (batch : List ToolCallRequest) (order : List Nat)
    (h : List.Perm order (List.range batch.length)) :
    bridgeTrace invoke batch order =
      (bridgeSubmit invoke batch order).map BridgeEv.submit ++
        [BridgeEv.drained] ∧
    (bridgeSubmit invoke batch order).length = batch.length ∧
    List.Perm
      ((bridgeSubmit invoke batch order).map ToolCallResult.call_id)
      (batch.map ToolCallRequest.call_id) := by
  have hp : List.Perm (bridgeSubmit invoke batch order)
      (batch.map fun r =>
        (⟨r.call_id, invoke r.tool_name r.arguments⟩ : ToolCallResult)) := by
    have h2 := h.filterMap fun i => (batch[i]?).map fun r =>
      (⟨r.call_id, invoke r.tool_name r.arguments⟩ : ToolCallResult)
    rw [filterMap_getElem_range] at h2
    exact h2
  refine ⟨rfl, ?_, ?_⟩
  · rw [hp.length_eq, List.length_map]
  · have h3 := hp.map ToolCallResult.call_id
    rw [List.map_map] at h3
    exact h3

/-- Witness for C2: a batch of two calls whose executions complete in
reverse order still gets both call_ids answered. -/
theorem C2_bridge_submits_all_witness :
    (bridgeSubmit (fun n a => n ++ a)
      [⟨"call_1", "fetch", "q1"⟩, ⟨"call_2", "fetch", "q2"⟩]
      [1, 0]).length = 2 ∧
    List.Perm
      ((bridgeSubmit (fun n a => n ++ a)
        [⟨"call_1", "fetch", "q1"⟩, ⟨"call_2", "fetch", "q2"⟩]
        [1, 0]).map ToolCallResult.call_id)
      ["call_1", "call_2"] := by
  have h := C2_bridge_submits_all (fun n a => n ++ a)
    [⟨"call_1", "fetch", "q1"⟩, ⟨"call_2", "fetch", "q2"⟩] [1, 0]
    (by decide)
  exact ⟨h.2.1, by simpa using h.2.2⟩

end ContosoAgent
